import Mathlib

/-!
Verification of the valve-sizing calculation engine.

The development shallowly embeds the engine's pure calculation code:
unit conversions, the valve reference tables, the rangeability
classification, liquid and gas Cv sizing, and the noise predictor.
Exact rational arithmetic (`ℚ`) models Python float arithmetic where the
source only adds, multiplies and compares; `ℝ` with `Real.sqrt` and
`Real.logb` models `** 0.5` and `np.log10`; a small `PyFloat` type models
the NaN/infinity values that `np.log10`/`np.sqrt` produce on non-positive
arguments together with Python's comparison semantics for them.
Python exceptions are modelled with `Except`.
-/

namespace ValveSizing

/-! ## Unit conversions (utils/unit_converters.py) -/

def BAR_TO_PSI : ℚ := 14.5038

def M3HR_TO_GPM : ℚ := 4.40287

def NM3HR_TO_SCFH : ℚ := 37.324

/-- `convert_pressure(value, from_system, to_unit)`: two guarded returns,
otherwise the value is returned unchanged. -/
def convert_pressure (value : ℚ) (from_system to_unit : String) : ℚ :=
  if from_system = "Metric" ∧ to_unit = "psi" then value * BAR_TO_PSI
  else if from_system = "Imperial" ∧ to_unit = "bar" then value / BAR_TO_PSI
  else value

def convert_flow_liquid (value : ℚ) (from_system to_unit : String) : ℚ :=
  if from_system = "Metric" ∧ to_unit = "gpm" then value * M3HR_TO_GPM
  else if from_system = "Imperial" ∧ to_unit = "m³/hr" then value / M3HR_TO_GPM
  else value

def convert_density (value : ℚ) (from_system to_unit : String) : ℚ :=
  if from_system = "Metric" ∧ to_unit = "SG" then value / 1000
  else if from_system = "Imperial" ∧ to_unit = "kg/m³" then value * 1000
  else value

def convert_temperature (value : ℚ) (from_system to_unit : String) : ℚ :=
  if from_system = "Metric" ∧ to_unit = "°F" then value * 9 / 5 + 32
  else if from_system = "Imperial" ∧ to_unit = "°C" then (value - 32) * 5 / 9
  else value

def convert_flow_gas (value : ℚ) (from_system to_unit : String) : ℚ :=
  if from_system = "Metric" ∧ to_unit = "scfh" then value * NM3HR_TO_SCFH
  else if from_system = "Imperial" ∧ to_unit = "Nm³/hr" then value / NM3HR_TO_SCFH
  else value

/-! ## Valve reference data (data/valve_data.py) -/

structure ValveCoeffEntry where
  FL : ℚ
  Kc : ℚ
  Xt : ℚ
  Rangeability : ℚ
  Style : String
deriving DecidableEq

def globe_styles : List (String × ValveCoeffEntry) :=
  [("Standard, Cage-Guided",
    { FL := 0.90, Kc := 0.70, Xt := 0.75, Rangeability := 50,
      Style := "General purpose, excellent throttling, moderate capacity." }),
   ("Low-Noise, Multi-Path",
    { FL := 0.95, Kc := 0.80, Xt := 0.80, Rangeability := 40,
      Style := "Designed to attenuate aerodynamic noise in gas service." }),
   ("Anti-Cavitation, Multi-Stage",
    { FL := 0.98, Kc := 0.85, Xt := 0.85, Rangeability := 30,
      Style := "Reduces pressure in multiple steps to prevent cavitation damage." }),
   ("Port-Guided, Quick Opening",
    { FL := 0.85, Kc := 0.65, Xt := 0.70, Rangeability := 20,
      Style := "Best for on/off service, poor throttling." })]

def ball_styles : List (String × ValveCoeffEntry) :=
  [("Standard V-Notch",
    { FL := 0.80, Kc := 0.60, Xt := 0.40, Rangeability := 100,
      Style := "Good rangeability and throttling, suitable for slurries." }),
   ("High-Performance",
    { FL := 0.75, Kc := 0.55, Xt := 0.35, Rangeability := 80,
      Style := "Higher capacity, but less pressure recovery." })]

def butterfly_styles : List (String × ValveCoeffEntry) :=
  [("Standard, Centric Disc",
    { FL := 0.70, Kc := 0.50, Xt := 0.30, Rangeability := 20,
      Style := "Low cost, high capacity, limited throttling range (typically 60-degree opening)." }),
   ("High-Performance, Double Offset",
    { FL := 0.85, Kc := 0.65, Xt := 0.55, Rangeability := 50,
      Style := "Better shutoff and control than standard butterfly valves." })]

/-- The outer level of the `VALVE_COEFFICIENTS` dict: valve type to its
ordered style table. -/
def VALVE_COEFFICIENTS (valve_type : String) : Option (List (String × ValveCoeffEntry)) :=
  if valve_type = "Globe" then some globe_styles
  else if valve_type = "Ball (Segmented)" then some ball_styles
  else if valve_type = "Butterfly" then some butterfly_styles
  else none

/-- `VALVE_COEFFICIENTS[valve_type][valve_style]`; `none` models the
`KeyError` path of `get_valve_data`. -/
def coeff_lookup (valve_type valve_style : String) : Option ValveCoeffEntry :=
  (VALVE_COEFFICIENTS valve_type).bind (fun l => l.lookup valve_style)

def default_valve_entry : ValveCoeffEntry :=
  { FL := 0.9, Kc := 0.7, Xt := 0.75, Rangeability := 30,
    Style := "Default general purpose values." }

def get_valve_data (valve_type valve_style : String) : ValveCoeffEntry :=
  (coeff_lookup valve_type valve_style).getD default_valve_entry

def get_valve_styles (valve_type : String) : List String :=
  match VALVE_COEFFICIENTS valve_type with
  | some l => l.map Prod.fst
  | none => ["Default Style"]

def VALVE_RATED_CVS : List (ℤ × ℚ) :=
  [(1, 12), (2, 50), (3, 110), (4, 170), (6, 400), (8, 700), (10, 1080),
   (12, 1750), (14, 2400), (16, 3200), (18, 4100), (20, 5000), (24, 7200),
   (30, 11000), (36, 16000), (42, 22000), (48, 28000), (54, 36000),
   (60, 45000), (66, 54000), (72, 65000)]

def get_rated_cv (valve_size : ℤ) : ℚ :=
  (VALVE_RATED_CVS.lookup valve_size).getD 50

/-! ## Rangeability evaluation (app.py, Step 3 rangeability analysis) -/

inductive RangeabilityStatus where
  | oversized : RangeabilityStatus
  | undersized : RangeabilityStatus
  | acceptable : ℚ → RangeabilityStatus
deriving DecidableEq

def min_controllable_cv (rated_cv inherent_rangeability : ℚ) : ℚ :=
  rated_cv / inherent_rangeability

/-- The classification branch of app.py's rangeability analysis:
oversized is checked first, then undersized, else acceptable with the
opening percentage. -/
def evaluate_rangeability (calculated_cv rated_cv inherent_rangeability : ℚ) :
    RangeabilityStatus :=
  if calculated_cv < min_controllable_cv rated_cv inherent_rangeability then
    .oversized
  else if calculated_cv > rated_cv then
    .undersized
  else
    .acceptable (calculated_cv / rated_cv * 100)

/-! ## Gas sizing, unit-conversion stage (calculations/gas_sizing.py) -/

structure GasData where
  p1 : ℚ
  p2 : ℚ
  t1 : ℚ
  flow_rate : ℚ
  unit_system : String
  mw : ℚ
  k : ℚ
  z : ℚ
  valve_type : String
  valve_style : String
deriving DecidableEq

def gas_p1_abs (d : GasData) : ℚ := convert_pressure d.p1 d.unit_system "psia"

def gas_p2_abs (d : GasData) : ℚ := convert_pressure d.p2 d.unit_system "psia"

def gas_t1_abs (d : GasData) : ℚ := convert_temperature d.t1 d.unit_system "R"

def gas_flow_scfh (d : GasData) : ℚ := convert_flow_gas d.flow_rate d.unit_system "scfh"

/-- `valve_specifics.get('Xt', 0.75)`: `get_valve_data` always returns an
entry carrying `Xt`, so the dict default never fires. -/
def gas_xt (d : GasData) : ℚ := (get_valve_data d.valve_type d.valve_style).Xt

def gas_fk (d : GasData) : ℚ := d.k / 1.40

def gas_x (d : GasData) : ℚ := (gas_p1_abs d - gas_p2_abs d) / gas_p1_abs d

def gas_x_choked (d : GasData) : ℚ := gas_xt d * gas_fk d

def gas_x_sizing (d : GasData) : ℚ :=
  if gas_x d ≥ gas_x_choked d then gas_x_choked d else gas_x d

def gas_is_choked (d : GasData) : Bool := gas_x d ≥ gas_x_choked d

def gas_y (d : GasData) : ℚ := 1 - gas_x_sizing d / (3 * gas_fk d * gas_xt d)

def c1_metric_data : GasData :=
  { p1 := 10, p2 := 5, t1 := 25, flow_rate := 1000, unit_system := "Metric",
    mw := 28.97, k := 1.4, z := 1,
    valve_type := "Globe", valve_style := "Standard, Cage-Guided" }

/-! ## Claim theorems on the computable core -/

/-- Claim C1: for Metric gas-sizing input the code is supposed to convert
p1, p2 into psi, t1 into Rankine and flow into scfh.  In the code the
pressure converter is called with target unit "psia" and the temperature
converter with target "R", which neither converter recognises, so p1, p2
and t1 pass through unchanged while only the flow conversion happens; the
converter would have scaled the pressure had it been asked for "psi". -/
theorem gas_metric_conversion_missing :
    gas_p1_abs c1_metric_data = 10 ∧
    gas_p2_abs c1_metric_data = 5 ∧
    gas_t1_abs c1_metric_data = 25 ∧
    gas_flow_scfh c1_metric_data = 1000 * NM3HR_TO_SCFH ∧
    gas_p1_abs c1_metric_data ≠ 10 * BAR_TO_PSI ∧
    convert_pressure 10 "Metric" "psi" = 10 * BAR_TO_PSI := by
  have hps : ("psia" : String) ≠ "psi" := by decide
  have hmi : ("Metric" : String) ≠ "Imperial" := by decide
  have hrf : ("R" : String) ≠ "°F" := by decide
  norm_num [gas_p1_abs, gas_p2_abs, gas_t1_abs, gas_flow_scfh, convert_pressure,
    convert_temperature, convert_flow_gas, c1_metric_data, BAR_TO_PSI, NM3HR_TO_SCFH,
    hps, hmi, hrf]

/-- Claim C5: the rangeability evaluator classifies cv below the minimum
controllable Cv as oversized, cv above the rated Cv as undersized and
everything in between (boundaries included) as acceptable with the
opening percentage cv/rated·100; at cv = rated_cv the answer is
acceptable at 100 %, at cv = min_controllable_cv it is acceptable. -/
theorem rangeability_classification (cv rated R : ℚ) (hrated : 0 < rated) (hR : 1 ≤ R) :
    (cv < min_controllable_cv rated R →
      evaluate_rangeability cv rated R = .oversized) ∧
    (rated < cv →
      evaluate_rangeability cv rated R = .undersized) ∧
    (min_controllable_cv rated R ≤ cv → cv ≤ rated →
      evaluate_rangeability cv rated R = .acceptable (cv / rated * 100)) ∧
    evaluate_rangeability rated rated R = .acceptable 100 ∧
    evaluate_rangeability (min_controllable_cv rated R) rated R =
      .acceptable (min_controllable_cv rated R / rated * 100) := by
  have hmin : min_controllable_cv rated R ≤ rated := by
    unfold min_controllable_cv
    exact div_le_self hrated.le hR
  refine ⟨?_, ?_, ?_, ?_, ?_⟩
  · intro h
    unfold evaluate_rangeability
    rw [if_pos h]
  · intro h
    unfold evaluate_rangeability
    rw [if_neg (by exact not_lt.mpr (le_trans hmin h.le)), if_pos h]
  · intro h1 h2
    unfold evaluate_rangeability
    rw [if_neg (not_lt.mpr h1), if_neg (not_lt.mpr h2)]
  · unfold evaluate_rangeability
    rw [if_neg (not_lt.mpr hmin), if_neg (lt_irrefl rated),
      div_self hrated.ne', one_mul]
  · unfold evaluate_rangeability
    rw [if_neg (lt_irrefl _), if_neg (not_lt.mpr hmin)]

theorem rangeability_classification_witness :
    (0 : ℚ) < 50 ∧ (1 : ℚ) ≤ 30 ∧
    evaluate_rangeability 50 50 30 = .acceptable 100 ∧
    evaluate_rangeability (min_controllable_cv 50 30) 50 30 =
      .acceptable (min_controllable_cv 50 30 / 50 * 100) := by
  have h := rangeability_classification 50 50 30 (by norm_num) (by norm_num)
  exact ⟨by norm_num, by norm_num, h.2.2.2.1, h.2.2.2.2⟩

/-- Claim C7: the three reference lookups are total: an unknown
(type, style) pair yields the default entry with FL 0.9, Kc 0.7, Xt 0.75,
Rangeability 30; an unknown valve type yields the single placeholder
style; an unknown nominal size (such as 5) yields rated Cv 50, and size 2
yields 50 from the table itself. -/
theorem reference_lookups_total (valve_type valve_style : String) (n : ℤ) :
    (coeff_lookup valve_type valve_style = none →
      get_valve_data valve_type valve_style = default_valve_entry ∧
      (get_valve_data valve_type valve_style).FL = 0.9 ∧
      (get_valve_data valve_type valve_style).Kc = 0.7 ∧
      (get_valve_data valve_type valve_style).Xt = 0.75 ∧
      (get_valve_data valve_type valve_style).Rangeability = 30) ∧
    (VALVE_COEFFICIENTS valve_type = none →
      get_valve_styles valve_type = ["Default Style"]) ∧
    (VALVE_RATED_CVS.lookup n = none → get_rated_cv n = 50) ∧
    get_rated_cv 5 = 50 ∧
    get_rated_cv 2 = 50 := by
  refine ⟨?_, ?_, ?_, by decide, by decide⟩
  · intro h
    simp [get_valve_data, h, default_valve_entry]
  · intro h
    simp [get_valve_styles, h]
  · intro h
    simp [get_rated_cv, h]

theorem reference_lookups_total_witness :
    coeff_lookup "Gate" "Any" = none ∧
    get_valve_data "Gate" "Any" = default_valve_entry ∧
    VALVE_COEFFICIENTS "Gate" = none ∧
    get_valve_styles "Gate" = ["Default Style"] ∧
    VALVE_RATED_CVS.lookup (5 : ℤ) = none ∧
    get_rated_cv 5 = 50 := by
  have h := reference_lookups_total "Gate" "Any" 5
  exact ⟨by decide, (h.1 (by decide)).1, by decide, h.2.1 (by decide),
    by decide, h.2.2.2.1⟩

/-- Claim C8: each converter maps a value from a unit system to that
system's own native unit unchanged, and an unrecognised from_system
leaves the value unchanged for any target unit. -/
theorem unit_conversion_identity (v : ℚ) (s u : String)
    (hm : s ≠ "Metric") (hi : s ≠ "Imperial") :
    convert_pressure v "Metric" "bar" = v ∧
    convert_pressure v "Imperial" "psi" = v ∧
    convert_flow_liquid v "Metric" "m³/hr" = v ∧
    convert_flow_liquid v "Imperial" "gpm" = v ∧
    convert_density v "Metric" "kg/m³" = v ∧
    convert_density v "Imperial" "SG" = v ∧
    convert_temperature v "Metric" "°C" = v ∧
    convert_temperature v "Imperial" "°F" = v ∧
    convert_flow_gas v "Metric" "Nm³/hr" = v ∧
    convert_flow_gas v "Imperial" "scfh" = v ∧
    convert_pressure v s u = v ∧
    convert_flow_liquid v s u = v ∧
    convert_density v s u = v ∧
    convert_temperature v s u = v ∧
    convert_flow_gas v s u = v := by
  unfold convert_pressure convert_flow_liquid convert_density
    convert_temperature convert_flow_gas
  simp [hm, hi]

theorem unit_conversion_identity_witness :
    ("Banana" : String) ≠ "Metric" ∧ ("Banana" : String) ≠ "Imperial" ∧
    convert_pressure 3 "Banana" "psi" = 3 := by
  have h := unit_conversion_identity 3 "Banana" "psi" (by decide) (by decide)
  exact ⟨by decide, by decide, h.2.2.2.2.2.2.2.2.2.2.1⟩

/-! ## A model of Python/NumPy float special values

`np.log10` and `np.sqrt` of out-of-domain arguments do not raise: they
return `nan` (negative argument) or `-inf` (`log10(0)`) with only a
runtime warning, and execution continues.  `PyFloat` models a Python
float as a real number or one of the special values; `pyLt` models
Python's `<` (every comparison with `nan` is false), and `pyMin`/`pyMax`
model the two-argument builtins `min(a, b)`/`max(a, b)` (which return
`b` exactly when `b < a` resp. `a < b`). -/

inductive PyFloat where
  | fin : ℝ → PyFloat
  | pinf : PyFloat
  | ninf : PyFloat
  | nan : PyFloat

noncomputable def pyLt : PyFloat → PyFloat → Bool
  | .nan, _ => false
  | _, .nan => false
  | .fin a, .fin b => decide (a < b)
  | .ninf, .ninf => false
  | .ninf, _ => true
  | _, .ninf => false
  | .fin _, .pinf => true
  | .pinf, _ => false

noncomputable def pyAdd : PyFloat → PyFloat → PyFloat
  | .nan, _ => .nan
  | _, .nan => .nan
  | .fin a, .fin b => .fin (a + b)
  | .fin _, .pinf => .pinf
  | .pinf, .fin _ => .pinf
  | .fin _, .ninf => .ninf
  | .ninf, .fin _ => .ninf
  | .pinf, .pinf => .pinf
  | .ninf, .ninf => .ninf
  | .pinf, .ninf => .nan
  | .ninf, .pinf => .nan

noncomputable def pyMul : PyFloat → PyFloat → PyFloat
  | .nan, _ => .nan
  | _, .nan => .nan
  | .fin a, .fin b => .fin (a * b)
  | .fin a, .pinf => if 0 < a then .pinf else if a < 0 then .ninf else .nan
  | .fin a, .ninf => if 0 < a then .ninf else if a < 0 then .pinf else .nan
  | .pinf, .fin b => if 0 < b then .pinf else if b < 0 then .ninf else .nan
  | .ninf, .fin b => if 0 < b then .ninf else if b < 0 then .pinf else .nan
  | .pinf, .pinf => .pinf
  | .pinf, .ninf => .ninf
  | .ninf, .pinf => .ninf
  | .ninf, .ninf => .pinf

/-- NumPy float division (never raises; 0/0 is nan, x/0 is a signed
infinity, x/nan is nan). -/
noncomputable def pyDiv : PyFloat → PyFloat → PyFloat
  | .nan, _ => .nan
  | _, .nan => .nan
  | .fin a, .fin b =>
      if b = 0 then (if a = 0 then .nan else if 0 < a then .pinf else .ninf)
      else .fin (a / b)
  | .fin _, .pinf => .fin 0
  | .fin _, .ninf => .fin 0
  | .pinf, .fin b => if b < 0 then .ninf else .pinf
  | .ninf, .fin b => if b < 0 then .pinf else .ninf
  | _, _ => .nan

noncomputable def pySMul (c : ℚ) (x : PyFloat) : PyFloat := pyMul (.fin (c : ℝ)) x

/-- `np.log10`: finite logarithm for positive arguments, `-inf` at zero,
`nan` (plus a warning) for negative arguments. -/
noncomputable def pyLog10 (x : ℝ) : PyFloat :=
  if 0 < x then .fin (Real.logb 10 x) else if x = 0 then .ninf else .nan

/-- `np.sqrt`: `nan` (plus a warning) for negative arguments. -/
noncomputable def pySqrtNp (x : ℝ) : PyFloat :=
  if 0 ≤ x then .fin (Real.sqrt x) else .nan

noncomputable def pyMin (a b : PyFloat) : PyFloat := if pyLt b a then b else a

noncomputable def pyMax (a b : PyFloat) : PyFloat := if pyLt a b then b else a

/-- Python exceptions raised by the calculation engine. -/
inductive PyExn where
  | valueError : String → PyExn
  | zeroDivisionError : PyExn
  | typeError : PyExn
deriving DecidableEq

/-! ## Noise prediction (calculations/noise_prediction.py) -/

structure NoiseInputs where
  p1 : ℚ
  p2 : ℚ
  valve_type : String
  fluid_type : String

/-- The fields of the sizing-results dict that `predict_noise` reads;
`.get` on the two liquid-only keys is modelled with `Option`. -/
structure NoiseResults where
  cv : ℝ
  cavitation_status : Option String
  is_flashing : Option Bool

structure NoiseResult where
  total_noise_dba : PyFloat
  noise_recommendation : String

noncomputable def noise_base (inp : NoiseInputs) (res : NoiseResults) : PyFloat :=
  let dp : ℚ := inp.p1 - inp.p2
  if inp.fluid_type = "Liquid" then
    if res.cavitation_status = some "Cavitation Likely" then
      pyAdd (.fin 80) (pySMul 10 (pyLog10 ((dp : ℝ) * res.cv)))
    else if res.is_flashing = some true then
      pyAdd (.fin 85) (pySMul 10 (pyLog10 ((dp : ℝ) * res.cv)))
    else
      pyAdd (.fin 60) (pySMul 10 (pyLog10 ((dp : ℝ) * res.cv)))
  else
    pyAdd (pyAdd (.fin 70)
        (pySMul 20 (pyLog10 (((0.1 + dp / inp.p1 * 0.8 : ℚ) : ℝ) * 1000))))
      (pySMul 10 (pyLog10 res.cv))

def transmission_loss (valve_type : String) : ℚ :=
  if valve_type = "Globe" then -5
  else if valve_type = "Ball (Segmented)" then -10
  else if valve_type = "Butterfly" then -15
  else 0

noncomputable def noise_raw_total (inp : NoiseInputs) (res : NoiseResults) : PyFloat :=
  pyAdd (pyAdd (noise_base inp res) (.fin ((transmission_loss inp.valve_type : ℚ) : ℝ)))
    (.fin (-5))

noncomputable def noise_total (inp : NoiseInputs) (res : NoiseResults) : PyFloat :=
  pyMax (.fin 50) (pyMin (.fin 120) (noise_raw_total inp res))

noncomputable def noise_advice (inp : NoiseInputs) (res : NoiseResults) : String :=
  if pyLt (.fin 110) (noise_total inp res) then
    "Extreme noise level. A specialized low-noise, multi-stage valve and path treatment (insulation, heavy-wall pipe) are essential."
  else if pyLt (.fin 85) (noise_total inp res) then
    "High noise level. Consider a low-noise trim package. Source treatment (thicker pipe) or path treatment (acoustic insulation) may be required."
  else
    "Standard trim is acceptable from a noise perspective."

/-- `predict_noise`: total except for the Python `ZeroDivisionError` in
the gas branch's `dp/p1`; there is no domain check anywhere else. -/
noncomputable def predict_noise (inp : NoiseInputs) (res : NoiseResults) :
    Except PyExn NoiseResult :=
  if inp.fluid_type ≠ "Liquid" ∧ inp.p1 = 0 then .error .zeroDivisionError
  else .ok { total_noise_dba := noise_total inp res,
             noise_recommendation := noise_advice inp res }

/-- Python's `max(50, min(120, t))` always produces a finite value in
`[50, 120]`, whatever float `t` is, including `nan` (which clamps to
`120` because every `nan` comparison is false) and `-inf`. -/
theorem py_clamp_cases (t : PyFloat) :
    ∃ v : ℝ, pyMax (.fin 50) (pyMin (.fin 120) t) = .fin v ∧
      50 ≤ v ∧ v ≤ 120 ∧
      (∀ w : ℝ, t = .fin w → w < 50 → v = 50) ∧
      (∀ w : ℝ, t = .fin w → 120 < w → v = 120) := by
  have hb : (50 : ℝ) < 120 := by norm_num
  cases t with
  | fin w =>
    by_cases hw : w < 120
    · by_cases hw2 : 50 < w
      · refine ⟨w, ?_, hw2.le, hw.le, ?_, ?_⟩
        · simp [pyMax, pyMin, pyLt, hw, hw2]
        · intro w' hw' hlt
          injection hw' with he
          subst he
          exact absurd hlt (not_lt.mpr hw2.le)
        · intro w' hw' hlt
          injection hw' with he
          subst he
          exact absurd hlt (not_lt.mpr hw.le)
      · refine ⟨50, ?_, le_refl _, by norm_num, fun _ _ _ => rfl, ?_⟩
        · simp [pyMax, pyMin, pyLt, hw, hw2]
        · intro w' hw' hlt
          injection hw' with he
          subst he
          push_neg at hw2
          exact absurd hlt (not_lt.mpr (by linarith))
    · refine ⟨120, ?_, by norm_num, le_refl _, ?_, fun _ _ _ => rfl⟩
      · simp [pyMax, pyMin, pyLt, hw, hb]
      · intro w' hw' hlt
        injection hw' with he
        subst he
        push_neg at hw
        exact absurd hlt (not_lt.mpr (by linarith))
  | pinf =>
    refine ⟨120, ?_, by norm_num, le_refl _, ?_, ?_⟩
    · simp [pyMax, pyMin, pyLt, hb]
    · intro w hw hlt
      exact PyFloat.noConfusion hw
    · intro w hw hlt
      exact PyFloat.noConfusion hw
  | ninf =>
    refine ⟨50, ?_, le_refl _, by norm_num, ?_, ?_⟩
    · simp [pyMax, pyMin, pyLt]
    · intro w hw hlt
      exact PyFloat.noConfusion hw
    · intro w hw hlt
      exact PyFloat.noConfusion hw
  | nan =>
    refine ⟨120, ?_, by norm_num, le_refl _, ?_, ?_⟩
    · simp [pyMax, pyMin, pyLt, hb]
    · intro w hw hlt
      exact PyFloat.noConfusion hw
    · intro w hw hlt
      exact PyFloat.noConfusion hw

/-- Claim C6: `predict_noise` (whenever it returns, i.e. outside the gas
`dp/p1` zero division) returns a total noise level that is a finite value
in `[50, 120]`; a finite raw total below 50 is reported as exactly 50 and
one above 120 as exactly 120. -/
theorem noise_total_clamped (inp : NoiseInputs) (res : NoiseResults)
    (h : inp.fluid_type = "Liquid" ∨ inp.p1 ≠ 0) :
    ∃ out : NoiseResult, predict_noise inp res = .ok out ∧
      ∃ v : ℝ, out.total_noise_dba = .fin v ∧ 50 ≤ v ∧ v ≤ 120 ∧
        (∀ w : ℝ, noise_raw_total inp res = .fin w → w < 50 → v = 50) ∧
        (∀ w : ℝ, noise_raw_total inp res = .fin w → 120 < w → v = 120) := by
  have hguard : ¬(inp.fluid_type ≠ "Liquid" ∧ inp.p1 = 0) := by
    rcases h with h | h
    · exact fun hc => hc.1 h
    · exact fun hc => h hc.2
  obtain ⟨v, hv, h50, h120, hlow, hhigh⟩ := py_clamp_cases (noise_raw_total inp res)
  refine ⟨{ total_noise_dba := noise_total inp res,
            noise_recommendation := noise_advice inp res }, ?_, v, ?_, h50, h120, hlow, hhigh⟩
  · unfold predict_noise
    rw [if_neg hguard]
  · show noise_total inp res = .fin v
    unfold noise_total
    exact hv

lemma logb_ten_zpow (n : ℤ) : Real.logb 10 ((10 : ℝ) ^ n) = n := by
  rw [← Real.rpow_intCast, Real.logb_rpow (by norm_num) (by norm_num)]

lemma pyLog10_hundredth : pyLog10 (1 / 100 : ℝ) = .fin (-2) := by
  unfold pyLog10
  rw [if_pos (by norm_num : (0 : ℝ) < 1 / 100),
    show (1 / 100 : ℝ) = (10 : ℝ) ^ (-2 : ℤ) by norm_num, logb_ten_zpow]
  norm_num

lemma pyLog10_hundred_thousand : pyLog10 (100000 : ℝ) = .fin 5 := by
  unfold pyLog10
  rw [if_pos (by norm_num : (0 : ℝ) < 100000),
    show (100000 : ℝ) = (10 : ℝ) ^ (5 : ℤ) by norm_num, logb_ten_zpow]
  norm_num

def c6_low_inputs : NoiseInputs :=
  { p1 := 3, p2 := 1, valve_type := "Globe", fluid_type := "Liquid" }

noncomputable def c6_low_results : NoiseResults :=
  { cv := 1 / 200, cavitation_status := some "No Significant Cavitation",
    is_flashing := some false }

def c6_high_inputs : NoiseInputs :=
  { p1 := 101, p2 := 1, valve_type := "Gate", fluid_type := "Liquid" }

noncomputable def c6_high_results : NoiseResults :=
  { cv := 1000, cavitation_status := some "Cavitation Likely",
    is_flashing := some false }

lemma c6_low_raw : noise_raw_total c6_low_inputs c6_low_results = .fin 30 := by
  have hne1 : ¬ ((some "No Significant Cavitation" : Option String) =
      some "Cavitation Likely") := by decide
  have hne2 : ¬ ((some false : Option Bool) = some true) := by decide
  have harg : (((3 : ℚ) - 1 : ℚ) : ℝ) * (1 / 200 : ℝ) = 1 / 100 := by
    push_cast
    norm_num
  unfold noise_raw_total noise_base transmission_loss c6_low_inputs c6_low_results
  simp only [hne1, hne2, if_false, if_true, eq_self_iff_true]
  rw [harg, pyLog10_hundredth]
  unfold pySMul pyMul pyAdd
  norm_num

lemma c6_high_raw : noise_raw_total c6_high_inputs c6_high_results = .fin 125 := by
  have hgl : ¬ (("Gate" : String) = "Globe") := by decide
  have hba : ¬ (("Gate" : String) = "Ball (Segmented)") := by decide
  have hbu : ¬ (("Gate" : String) = "Butterfly") := by decide
  have harg : (((101 : ℚ) - 1 : ℚ) : ℝ) * (1000 : ℝ) = 100000 := by
    push_cast
    norm_num
  unfold noise_raw_total noise_base transmission_loss c6_high_inputs c6_high_results
  simp only [hgl, hba, hbu, if_false, if_true, eq_self_iff_true]
  rw [harg, pyLog10_hundred_thousand]
  unfold pySMul pyMul pyAdd
  norm_num

theorem noise_total_clamped_witness :
    (noise_raw_total c6_low_inputs c6_low_results = .fin 30 ∧
      ∃ out, predict_noise c6_low_inputs c6_low_results = .ok out ∧
        out.total_noise_dba = .fin 50) ∧
    (noise_raw_total c6_high_inputs c6_high_results = .fin 125 ∧
      ∃ out, predict_noise c6_high_inputs c6_high_results = .ok out ∧
        out.total_noise_dba = .fin 120) := by
  obtain ⟨outL, hOkL, vL, hvL, _, _, hLowL, _⟩ :=
    noise_total_clamped c6_low_inputs c6_low_results (Or.inl rfl)
  obtain ⟨outH, hOkH, vH, hvH, _, _, _, hHighH⟩ :=
    noise_total_clamped c6_high_inputs c6_high_results (Or.inl rfl)
  refine ⟨⟨c6_low_raw, outL, hOkL, ?_⟩, ⟨c6_high_raw, outH, hOkH, ?_⟩⟩
  · rw [hvL, hLowL 30 c6_low_raw (by norm_num)]
  · rw [hvH, hHighH 125 c6_high_raw (by norm_num)]

def c2_inputs : NoiseInputs :=
  { p1 := 5, p2 := 10, valve_type := "Globe", fluid_type := "Liquid" }

noncomputable def c2_results : NoiseResults :=
  { cv := 2, cavitation_status := some "No Significant Cavitation",
    is_flashing := some false }

/-- Claim C2: on a liquid input with `(p1 - p2) * cv < 0` the log10
argument is negative, and the source does not fail: `np.log10` produces
`nan` with just a warning, the nan propagates into the clamp, Python's
`max(50, min(120, nan))` evaluates to `120`, and `predict_noise` returns
a normal NoiseResult claiming 120 dBA and the extreme-noise
recommendation, instead of raising a domain error. -/
theorem noise_domain_error_missing :
    noise_raw_total c2_inputs c2_results = .nan ∧
    predict_noise c2_inputs c2_results =
      .ok { total_noise_dba := .fin 120,
            noise_recommendation := "Extreme noise level. A specialized low-noise, multi-stage valve and path treatment (insulation, heavy-wall pipe) are essential." } := by
  have hne1 : ¬ ((some "No Significant Cavitation" : Option String) =
      some "Cavitation Likely") := by decide
  have hne2 : ¬ ((some false : Option Bool) = some true) := by decide
  have harg : (((5 : ℚ) - 10 : ℚ) : ℝ) * (2 : ℝ) = -10 := by
    push_cast
    norm_num
  have hlog : pyLog10 ((((5 : ℚ) - 10 : ℚ) : ℝ) * (2 : ℝ)) = .nan := by
    rw [harg]
    unfold pyLog10
    rw [if_neg (by norm_num : ¬ ((0 : ℝ) < -10)), if_neg (by norm_num : ¬ ((-10 : ℝ) = 0))]
  have hraw : noise_raw_total c2_inputs c2_results = .nan := by
    unfold noise_raw_total noise_base transmission_loss c2_inputs c2_results
    simp only [hne1, hne2, if_false, if_true, eq_self_iff_true]
    rw [hlog]
    unfold pySMul pyMul pyAdd
    norm_num
  have htot : noise_total c2_inputs c2_results = .fin 120 := by
    unfold noise_total
    rw [hraw]
    unfold pyMin pyMax pyLt
    norm_num
  have hadv : noise_advice c2_inputs c2_results =
      "Extreme noise level. A specialized low-noise, multi-stage valve and path treatment (insulation, heavy-wall pipe) are essential." := by
    unfold noise_advice
    rw [htot]
    unfold pyLt
    rw [if_pos (by norm_num)]
  refine ⟨hraw, ?_⟩
  unfold predict_noise
  rw [if_neg (by exact fun hc => hc.1 rfl), htot, hadv]

/-! ## Gas sizing, full function (calculations/gas_sizing.py)

The returned dict.  `cv` is a `PyFloat` because `np.sqrt` of a negative
argument silently produces `nan` which then flows into `cv`; the other
fields are exact rationals.  The field `choked_pressure_drop_ratio_xc`
models the dict key "choked_pressure_drop_ratio". -/

structure GasResult where
  cv : PyFloat
  is_choked : Bool
  expansion_factor_y : ℚ
  pressure_drop_ratio_x : ℚ
  choked_pressure_drop_ratio_xc : ℚ

noncomputable instance : DecidableEq PyFloat := Classical.decEq _

noncomputable def gas_denominator (d : GasData) : PyFloat :=
  pyMul (.fin (1360 * (gas_y d : ℝ) * (gas_p1_abs d : ℝ)))
    (pySqrtNp ((gas_x_sizing d / (d.mw * gas_t1_abs d * d.z) : ℚ) : ℝ))

/-- `calculate_gas_cv`.  The three `zeroDivisionError` guards sit exactly
where Python float division raises: in `x = (p1_abs - p2_abs) / p1_abs`,
in `y`'s divisor `3 * fk * xt`, and in the `np.sqrt` argument's divisor
`mw * t1_abs * z`; the `valueError` is the source's explicit
`denominator == 0` check (false for a `nan` denominator, as in Python). -/
noncomputable def calculate_gas_cv (d : GasData) : Except PyExn GasResult :=
  if gas_p1_abs d = 0 then .error .zeroDivisionError
  else if 3 * gas_fk d * gas_xt d = 0 then .error .zeroDivisionError
  else if d.mw * gas_t1_abs d * d.z = 0 then .error .zeroDivisionError
  else if gas_denominator d = .fin 0 then
    .error (.valueError "Calculation error: denominator is zero. Check inputs.")
  else
    .ok { cv := pyDiv (.fin (gas_flow_scfh d : ℝ)) (gas_denominator d),
          is_choked := gas_is_choked d,
          expansion_factor_y := gas_y d,
          pressure_drop_ratio_x := gas_x d,
          choked_pressure_drop_ratio_xc := gas_x_choked d }

/-- The gas converters never touch the pressures and the temperature:
target units "psia" and "R" match no converter branch, for either unit
system. -/
lemma gas_conversions_id (d : GasData) :
    gas_p1_abs d = d.p1 ∧ gas_p2_abs d = d.p2 ∧ gas_t1_abs d = d.t1 := by
  have hps : ("psia" : String) ≠ "psi" := by decide
  have hpb : ("psia" : String) ≠ "bar" := by decide
  have hrf : ("R" : String) ≠ "°F" := by decide
  have hrc : ("R" : String) ≠ "°C" := by decide
  unfold gas_p1_abs gas_p2_abs gas_t1_abs convert_pressure convert_temperature
  simp [hps, hpb, hrf, hrc]

/-- Claim C4: the choked-flow decision: `is_choked` is true and the
sizing ratio equals `x_choked` exactly when `x ≥ x_choked` (equality
included); otherwise `is_choked` is false and the sizing ratio is `x`;
a returned result carries exactly these values. -/
theorem gas_choked_decision (d : GasData) :
    (gas_x_choked d ≤ gas_x d →
      gas_is_choked d = true ∧ gas_x_sizing d = gas_x_choked d) ∧
    (gas_x d < gas_x_choked d →
      gas_is_choked d = false ∧ gas_x_sizing d = gas_x d) ∧
    (∀ r : GasResult, calculate_gas_cv d = .ok r →
      r.is_choked = gas_is_choked d ∧
      r.expansion_factor_y = gas_y d ∧
      r.pressure_drop_ratio_x = gas_x d ∧
      r.choked_pressure_drop_ratio_xc = gas_x_choked d) := by
  refine ⟨?_, ?_, ?_⟩
  · intro h
    exact ⟨by simp [gas_is_choked, h], by simp [gas_x_sizing, h]⟩
  · intro h
    have h' : ¬ (gas_x_choked d ≤ gas_x d) := not_le.mpr h
    exact ⟨by simp [gas_is_choked, h'], by simp [gas_x_sizing, h']⟩
  · intro r hr
    unfold calculate_gas_cv at hr
    split_ifs at hr
    all_goals
      first
      | exact Except.noConfusion hr
      | (injection hr with h
         subst h
         exact ⟨rfl, rfl, rfl, rfl⟩)

def c4_boundary_data : GasData :=
  { p1 := 4, p2 := 1, t1 := 60, flow_rate := 1000, unit_system := "Metric",
    mw := 28.97, k := 1.4, z := 1,
    valve_type := "Globe", valve_style := "Standard, Cage-Guided" }

theorem gas_choked_decision_witness :
    gas_x_choked c4_boundary_data ≤ gas_x c4_boundary_data ∧
    gas_is_choked c4_boundary_data = true ∧
    gas_x_sizing c4_boundary_data = gas_x_choked c4_boundary_data := by
  have hxt : gas_xt c4_boundary_data = 0.75 := by
    norm_num [gas_xt, get_valve_data, coeff_lookup, VALVE_COEFFICIENTS,
      globe_styles, List.lookup, c4_boundary_data]
  have hid := gas_conversions_id c4_boundary_data
  have h : gas_x_choked c4_boundary_data ≤ gas_x c4_boundary_data := by
    unfold gas_x_choked gas_x
    rw [hxt, hid.1, hid.2.1]
    norm_num [gas_fk, c4_boundary_data]
  obtain ⟨h1, h2⟩ := (gas_choked_decision c4_boundary_data).1 h
  exact ⟨h, h1, h2⟩

/-- Claim C10: with p1 > p2 > 0, Xt > 0 and k > 0, the expansion factor
satisfies 2/3 ≤ Y < 1 because the sizing ratio is capped at
x_choked = Xt·Fk; when additionally mw·t1_abs·z > 0 (so the square-root
argument is a positive real) and the flow rate is positive, the Cv
denominator is a strictly positive finite float and the returned cv is a
strictly positive finite float. -/
theorem gas_expansion_factor_bounds (d : GasData)
    (hp2 : 0 < d.p2) (hp12 : d.p2 < d.p1) (hxt : 0 < gas_xt d) (hk : 0 < d.k) :
    (2 / 3 ≤ gas_y d ∧ gas_y d < 1) ∧
    (0 < d.mw * gas_t1_abs d * d.z → 0 < d.flow_rate →
      (∃ dv : ℝ, gas_denominator d = .fin dv ∧ 0 < dv) ∧
      ∃ r : GasResult, calculate_gas_cv d = .ok r ∧
        r.expansion_factor_y = gas_y d ∧ ∃ v : ℝ, r.cv = .fin v ∧ 0 < v) := by
  obtain ⟨hid1, hid2, -⟩ := gas_conversions_id d
  have hp1 : 0 < d.p1 := hp2.trans hp12
  have hfk : 0 < gas_fk d := by
    unfold gas_fk
    exact div_pos hk (by norm_num)
  have hxc : 0 < gas_x_choked d := by
    unfold gas_x_choked
    exact mul_pos hxt hfk
  have hx : 0 < gas_x d := by
    unfold gas_x
    rw [hid1, hid2]
    exact div_pos (sub_pos.mpr hp12) hp1
  have hxs_pos : 0 < gas_x_sizing d := by
    unfold gas_x_sizing
    split_ifs
    · exact hxc
    · exact hx
  have hxs_le : gas_x_sizing d ≤ gas_x_choked d := by
    unfold gas_x_sizing
    split_ifs with h
    · exact le_refl _
    · exact (not_le.mp h).le
  have h3 : 0 < 3 * gas_fk d * gas_xt d :=
    mul_pos (mul_pos (by norm_num) hfk) hxt
  have hquot : gas_x_sizing d / (3 * gas_fk d * gas_xt d) ≤ 1 / 3 := by
    have hxc_div : gas_x_choked d / (3 * gas_fk d * gas_xt d) = 1 / 3 := by
      unfold gas_x_choked
      field_simp
      ring
    rw [← hxc_div]
    exact (div_le_div_iff_of_pos_right h3).mpr hxs_le
  have hquot_pos : 0 < gas_x_sizing d / (3 * gas_fk d * gas_xt d) :=
    div_pos hxs_pos h3
  have hy_bounds : 2 / 3 ≤ gas_y d ∧ gas_y d < 1 := by
    unfold gas_y
    exact ⟨by linarith, by linarith⟩
  refine ⟨hy_bounds, ?_⟩
  intro hmtz hflow
  have hflow_scfh : 0 < gas_flow_scfh d := by
    unfold gas_flow_scfh convert_flow_gas
    split_ifs
    · exact mul_pos hflow (by norm_num [NM3HR_TO_SCFH])
    · exact div_pos hflow (by norm_num [NM3HR_TO_SCFH])
    · exact hflow
  have harg : 0 < gas_x_sizing d / (d.mw * gas_t1_abs d * d.z) :=
    div_pos hxs_pos hmtz
  have hy_pos : (0 : ℚ) < gas_y d := lt_of_lt_of_le (by norm_num) hy_bounds.1
  have hApos : 0 < 1360 * (gas_y d : ℝ) * (gas_p1_abs d : ℝ) := by
    have h1 : (0 : ℝ) < (gas_y d : ℝ) := by exact_mod_cast hy_pos
    have h2 : (0 : ℝ) < (gas_p1_abs d : ℝ) := by
      rw [hid1]
      exact_mod_cast hp1
    exact mul_pos (mul_pos (by norm_num) h1) h2
  have hsq_pos :
      0 < Real.sqrt ((gas_x_sizing d / (d.mw * gas_t1_abs d * d.z) : ℚ) : ℝ) :=
    Real.sqrt_pos.mpr (by exact_mod_cast harg)
  have hsq : pySqrtNp ((gas_x_sizing d / (d.mw * gas_t1_abs d * d.z) : ℚ) : ℝ) =
      .fin (Real.sqrt ((gas_x_sizing d / (d.mw * gas_t1_abs d * d.z) : ℚ) : ℝ)) := by
    unfold pySqrtNp
    rw [if_pos]
    exact_mod_cast harg.le
  have hdv_pos : 0 < 1360 * (gas_y d : ℝ) * (gas_p1_abs d : ℝ) *
      Real.sqrt ((gas_x_sizing d / (d.mw * gas_t1_abs d * d.z) : ℚ) : ℝ) :=
    mul_pos hApos hsq_pos
  have hden : gas_denominator d = .fin (1360 * (gas_y d : ℝ) * (gas_p1_abs d : ℝ) *
      Real.sqrt ((gas_x_sizing d / (d.mw * gas_t1_abs d * d.z) : ℚ) : ℝ)) := by
    unfold gas_denominator
    rw [hsq]
    simp [pyMul]
  refine ⟨⟨_, hden, hdv_pos⟩, ?_⟩
  have hg1 : ¬ (gas_p1_abs d = 0) := by
    rw [hid1]
    exact hp1.ne'
  have hg4 : ¬ (gas_denominator d = .fin 0) := by
    rw [hden]
    intro hcontra
    injection hcontra with h
    exact hdv_pos.ne' h
  refine ⟨{ cv := pyDiv (.fin (gas_flow_scfh d : ℝ)) (gas_denominator d),
            is_choked := gas_is_choked d,
            expansion_factor_y := gas_y d,
            pressure_drop_ratio_x := gas_x d,
            choked_pressure_drop_ratio_xc := gas_x_choked d }, ?_, rfl, ?_⟩
  · unfold calculate_gas_cv
    rw [if_neg hg1, if_neg h3.ne', if_neg hmtz.ne', if_neg hg4]
  · show ∃ v : ℝ,
      pyDiv (.fin (gas_flow_scfh d : ℝ)) (gas_denominator d) = .fin v ∧ 0 < v
    rw [hden]
    refine ⟨(gas_flow_scfh d : ℝ) / (1360 * (gas_y d : ℝ) * (gas_p1_abs d : ℝ) *
      Real.sqrt ((gas_x_sizing d / (d.mw * gas_t1_abs d * d.z) : ℚ) : ℝ)), ?_, ?_⟩
    · simp only [pyDiv]
      rw [if_neg hdv_pos.ne']
    · exact div_pos (by exact_mod_cast hflow_scfh) hdv_pos

def c10_data : GasData :=
  { p1 := 10, p2 := 5, t1 := 25, flow_rate := 1000, unit_system := "Metric",
    mw := 28.97, k := 1.4, z := 1,
    valve_type := "Globe", valve_style := "Standard, Cage-Guided" }

theorem gas_expansion_factor_bounds_witness :
    (0 : ℚ) < c10_data.p2 ∧ c10_data.p2 < c10_data.p1 ∧
    0 < gas_xt c10_data ∧ 0 < c10_data.k ∧
    0 < c10_data.mw * gas_t1_abs c10_data * c10_data.z ∧
    0 < c10_data.flow_rate ∧
    (2 / 3 ≤ gas_y c10_data ∧ gas_y c10_data < 1) ∧
    ∃ r : GasResult, calculate_gas_cv c10_data = .ok r ∧
      ∃ v : ℝ, r.cv = .fin v ∧ 0 < v := by
  have hxt : gas_xt c10_data = 0.75 := by
    norm_num [gas_xt, get_valve_data, coeff_lookup, VALVE_COEFFICIENTS,
      globe_styles, List.lookup, c10_data]
  have h1 : (0 : ℚ) < c10_data.p2 := by norm_num [c10_data]
  have h2 : c10_data.p2 < c10_data.p1 := by norm_num [c10_data]
  have h3 : 0 < gas_xt c10_data := by
    rw [hxt]
    norm_num
  have h4 : (0 : ℚ) < c10_data.k := by norm_num [c10_data]
  have h5 : 0 < c10_data.mw * gas_t1_abs c10_data * c10_data.z := by
    rw [(gas_conversions_id c10_data).2.2]
    norm_num [c10_data]
  have h6 : (0 : ℚ) < c10_data.flow_rate := by norm_num [c10_data]
  have H := gas_expansion_factor_bounds c10_data h1 h2 h3 h4
  obtain ⟨-, r, hr, -, v, hv, hvpos⟩ := H.2 h5 h6
  exact ⟨h1, h2, h3, h4, h5, h6, H.1, r, hr, v, hv, hvpos⟩

/-! ## Liquid sizing (calculations/liquid_sizing.py) -/

structure LiquidData where
  p1 : ℚ
  p2 : ℚ
  pv : ℚ
  pc : ℚ
  rho : ℚ
  flow_rate : ℚ
  unit_system : String
  fl : ℚ
  kc : ℚ
deriving DecidableEq

def liq_p1 (d : LiquidData) : ℚ := convert_pressure d.p1 d.unit_system "psi"

def liq_p2 (d : LiquidData) : ℚ := convert_pressure d.p2 d.unit_system "psi"

def liq_pv (d : LiquidData) : ℚ := convert_pressure d.pv d.unit_system "psi"

def liq_pc (d : LiquidData) : ℚ := convert_pressure d.pc d.unit_system "psi"

def liq_flow (d : LiquidData) : ℚ := convert_flow_liquid d.flow_rate d.unit_system "gpm"

def liq_gf (d : LiquidData) : ℚ :=
  if d.unit_system = "Metric" then d.rho / 1000 else d.rho

def liq_dp (d : LiquidData) : ℚ := liq_p1 d - liq_p2 d

def liq_pv_over_pc (d : LiquidData) : ℚ := liq_pv d / liq_pc d

/-- `ff = 0.96 - 0.28 * (pv/pc) ** 0.5`; `Real.sqrt` models `** 0.5`
exactly on the nonnegative operands the guards admit. -/
noncomputable def liq_ff (d : LiquidData) : ℝ :=
  0.96 - 0.28 * Real.sqrt ((liq_pv_over_pc d : ℚ) : ℝ)

noncomputable def liq_dp_allowable (d : LiquidData) : ℝ :=
  ((d.fl : ℚ) : ℝ) ^ 2 * ((liq_p1 d : ℝ) - liq_ff d * (liq_pv d : ℝ))

noncomputable def liq_dp_sizing (d : LiquidData) : ℝ :=
  min ((liq_dp d : ℚ) : ℝ) (liq_dp_allowable d)

noncomputable def liq_cv (d : LiquidData) : ℝ :=
  (liq_flow d : ℝ) * Real.sqrt (((liq_gf d : ℚ) : ℝ) / liq_dp_sizing d)

def liq_sigma (d : LiquidData) : ℚ :=
  (liq_p1 d - liq_pv d) / (liq_p1 d - liq_p2 d)

structure LiquidResult where
  cv : ℝ
  is_flashing : Bool
  cavitation_index : ℚ
  cavitation_status : String
  trim_recommendation : String
  dp_sizing : ℝ

def dp_positive_error : PyExn :=
  .valueError "Sizing pressure drop (dP) must be positive. Check inlet/outlet pressures."

/-- `calculate_liquid_cv`.  `fl`/`kc` carry the caller-supplied values of
`data.get('fl', 0.9)`/`data.get('kc', 0.7)`.  The `zeroDivisionError`
guards sit where Python float division raises (`pv/pc`, the sigma
divisor `p1 - p2` — unreachable once `dp_sizing > 0` — and `1/kc`); the
`typeError` guard models `min(dp, dp_allowable)` raising when a negative
`pv/pc` makes `(pv/pc) ** 0.5`, hence `dp_allowable`, a Python complex
number; the `valueError` is the source's explicit `dp_sizing <= 0`
check. -/
noncomputable def calculate_liquid_cv (d : LiquidData) : Except PyExn LiquidResult :=
  if liq_pc d = 0 then .error .zeroDivisionError
  else if liq_pv_over_pc d < 0 then .error .typeError
  else if liq_dp_sizing d ≤ 0 then .error dp_positive_error
  else if liq_p1 d - liq_p2 d = 0 then .error .zeroDivisionError
  else if liq_p2 d < liq_pv d then
    .ok { cv := liq_cv d, is_flashing := true, cavitation_index := liq_sigma d,
          cavitation_status := "Flashing Occurs",
          trim_recommendation := "Flashing service requires hardened trim materials (e.g., Stellite) and potentially an expanded outlet.",
          dp_sizing := liq_dp_sizing d }
  else if d.kc = 0 then .error .zeroDivisionError
  else if liq_sigma d < 1 / d.kc then
    .ok { cv := liq_cv d, is_flashing := false, cavitation_index := liq_sigma d,
          cavitation_status := "Cavitation Likely",
          trim_recommendation := "High cavitation risk. Recommend using anti-cavitation trim or a multi-stage valve design.",
          dp_sizing := liq_dp_sizing d }
  else
    .ok { cv := liq_cv d, is_flashing := false, cavitation_index := liq_sigma d,
          cavitation_status := "No Significant Cavitation",
          trim_recommendation := "Standard trim is likely acceptable, but monitor for high pressure drop scenarios.",
          dp_sizing := liq_dp_sizing d }

lemma liq_pressure_conv (q : ℚ) (us : String) :
    convert_pressure q us "psi" = if us = "Metric" then q * BAR_TO_PSI else q := by
  have h : ¬ (("psi" : String) = "bar") := by decide
  unfold convert_pressure
  by_cases hm : us = "Metric"
  · simp [hm]
  · simp [hm, h]

lemma liq_flow_conv (q : ℚ) (us : String) :
    convert_flow_liquid q us "gpm" = if us = "Metric" then q * M3HR_TO_GPM else q := by
  have h : ¬ (("gpm" : String) = "m³/hr") := by decide
  unfold convert_flow_liquid
  by_cases hm : us = "Metric"
  · simp [hm]
  · simp [hm, h]

lemma liquid_ok_of_pos (d : LiquidData)
    (hkc : d.kc ≠ 0) (hpc : liq_pc d ≠ 0) (hratio : 0 ≤ liq_pv_over_pc d)
    (hpos : 0 < liq_dp_sizing d) :
    ∃ r : LiquidResult, calculate_liquid_cv d = .ok r ∧
      r.cv = liq_cv d ∧ r.dp_sizing = liq_dp_sizing d := by
  have hdpR : (0 : ℝ) < ((liq_dp d : ℚ) : ℝ) :=
    lt_of_lt_of_le hpos (min_le_left _ _)
  have hdpQ : 0 < liq_dp d := by exact_mod_cast hdpR
  have hne : ¬ (liq_p1 d - liq_p2 d = 0) := by
    unfold liq_dp at hdpQ
    exact hdpQ.ne'
  unfold calculate_liquid_cv
  rw [if_neg hpc, if_neg (not_lt.mpr hratio), if_neg (not_le.mpr hpos), if_neg hne]
  by_cases hfl : liq_p2 d < liq_pv d
  · rw [if_pos hfl]
    exact ⟨_, rfl, rfl, rfl⟩
  · rw [if_neg hfl, if_neg hkc]
    by_cases hsig : liq_sigma d < 1 / d.kc
    · rw [if_pos hsig]
      exact ⟨_, rfl, rfl, rfl⟩
    · rw [if_neg hsig]
      exact ⟨_, rfl, rfl, rfl⟩

lemma liquid_err_of_nonpos (d : LiquidData)
    (hpc : liq_pc d ≠ 0) (hratio : 0 ≤ liq_pv_over_pc d)
    (hle : liq_dp_sizing d ≤ 0) :
    calculate_liquid_cv d = .error dp_positive_error := by
  unfold calculate_liquid_cv
  rw [if_neg hpc, if_neg (not_lt.mpr hratio), if_pos hle]

/-- Claim C3: under the function's arithmetic domain (pc ≠ 0,
pv/pc ≥ 0, kc ≠ 0 — outside it Python raises ZeroDivisionError or
TypeError before/after the check), the ValidationError fires exactly
when dP_sizing = min(p1 - p2, FL²·(p1 - Ff·pv)) ≤ 0; every input with
p2 ≥ p1 fails that way, and every input with dP_sizing > 0 yields a
SizingResult and no error. -/
theorem liquid_validation_iff (d : LiquidData)
    (hpc : liq_pc d ≠ 0) (hratio : 0 ≤ liq_pv_over_pc d) (hkc : d.kc ≠ 0) :
    (calculate_liquid_cv d = .error dp_positive_error ↔ liq_dp_sizing d ≤ 0) ∧
    (0 < liq_dp_sizing d → ∃ r : LiquidResult, calculate_liquid_cv d = .ok r) ∧
    (d.p1 ≤ d.p2 → calculate_liquid_cv d = .error dp_positive_error) := by
  refine ⟨⟨?_, liquid_err_of_nonpos d hpc hratio⟩, ?_, ?_⟩
  · intro herr
    by_contra hpos
    push_neg at hpos
    obtain ⟨r, hr, -, -⟩ := liquid_ok_of_pos d hkc hpc hratio hpos
    rw [herr] at hr
    exact Except.noConfusion hr
  · intro hpos
    obtain ⟨r, hr, -, -⟩ := liquid_ok_of_pos d hkc hpc hratio hpos
    exact ⟨r, hr⟩
  · intro hp21
    have hB : (0 : ℚ) < BAR_TO_PSI := by norm_num [BAR_TO_PSI]
    have h1 : liq_p1 d ≤ liq_p2 d := by
      unfold liq_p1 liq_p2
      rw [liq_pressure_conv, liq_pressure_conv]
      split_ifs
      · exact mul_le_mul_of_nonneg_right hp21 hB.le
      · exact hp21
    have hdp : liq_dp d ≤ 0 := by
      unfold liq_dp
      linarith
    have hdpR : ((liq_dp d : ℚ) : ℝ) ≤ 0 := by exact_mod_cast hdp
    exact liquid_err_of_nonpos d hpc hratio
      (le_trans (min_le_left _ _) hdpR)

def c3_data : LiquidData :=
  { p1 := 5, p2 := 10, pv := 0, pc := 221, rho := 1000, flow_rate := 100,
    unit_system := "Metric", fl := 0.9, kc := 0.7 }

theorem liquid_validation_iff_witness :
    liq_pc c3_data ≠ 0 ∧ 0 ≤ liq_pv_over_pc c3_data ∧ c3_data.kc ≠ 0 ∧
    c3_data.p1 ≤ c3_data.p2 ∧
    calculate_liquid_cv c3_data = .error dp_positive_error := by
  have hpc : liq_pc c3_data ≠ 0 := by
    norm_num [liq_pc, convert_pressure, c3_data, BAR_TO_PSI]
  have hratio : 0 ≤ liq_pv_over_pc c3_data := by
    norm_num [liq_pv_over_pc, liq_pv, liq_pc, convert_pressure, c3_data, BAR_TO_PSI]
  have hkc : c3_data.kc ≠ 0 := by norm_num [c3_data]
  have hp : c3_data.p1 ≤ c3_data.p2 := by norm_num [c3_data]
  exact ⟨hpc, hratio, hkc, hp,
    (liquid_validation_iff c3_data hpc hratio hkc).2.2 hp⟩

/-- Claim C9: for valid liquid inputs (p1 > p2 > 0, positive allowable
pressure drop, positive specific gravity, and the function's arithmetic
domain pc ≠ 0, pv/pc ≥ 0, kc ≠ 0), the computed cv is strictly positive
for positive flow and strictly increasing in flow_rate with all other
inputs fixed. -/
theorem liquid_cv_positive_monotone (d : LiquidData) (q q' : ℚ)
    (hpc : liq_pc d ≠ 0) (hratio : 0 ≤ liq_pv_over_pc d) (hkc : d.kc ≠ 0)
    (hp2 : 0 < d.p2) (hp12 : d.p2 < d.p1)
    (hdpa : 0 < liq_dp_allowable d) (hgf : 0 < liq_gf d)
    (hq : 0 < q) (hqq : q < q') :
    ∃ r r' : LiquidResult,
      calculate_liquid_cv { d with flow_rate := q } = .ok r ∧
      calculate_liquid_cv { d with flow_rate := q' } = .ok r' ∧
      0 < r.cv ∧ r.cv < r'.cv := by
  have hB : (0 : ℚ) < BAR_TO_PSI := by norm_num [BAR_TO_PSI]
  have hM : (0 : ℚ) < M3HR_TO_GPM := by norm_num [M3HR_TO_GPM]
  have hdpQ : 0 < liq_dp d := by
    unfold liq_dp liq_p1 liq_p2
    rw [liq_pressure_conv, liq_pressure_conv]
    split_ifs
    · have := mul_lt_mul_of_pos_right hp12 hB
      linarith
    · linarith
  have hpos : 0 < liq_dp_sizing d := lt_min (by exact_mod_cast hdpQ) hdpa
  obtain ⟨r, hr, hrcv, -⟩ :=
    liquid_ok_of_pos { d with flow_rate := q } hkc hpc hratio hpos
  obtain ⟨r', hr', hrcv', -⟩ :=
    liquid_ok_of_pos { d with flow_rate := q' } hkc hpc hratio hpos
  have hcvq : liq_cv { d with flow_rate := q } =
      ((convert_flow_liquid q d.unit_system "gpm" : ℚ) : ℝ) *
        Real.sqrt (((liq_gf d : ℚ) : ℝ) / liq_dp_sizing d) := rfl
  have hcvq' : liq_cv { d with flow_rate := q' } =
      ((convert_flow_liquid q' d.unit_system "gpm" : ℚ) : ℝ) *
        Real.sqrt (((liq_gf d : ℚ) : ℝ) / liq_dp_sizing d) := rfl
  have hspos : 0 < Real.sqrt (((liq_gf d : ℚ) : ℝ) / liq_dp_sizing d) :=
    Real.sqrt_pos.mpr (div_pos (by exact_mod_cast hgf) hpos)
  have hfq : 0 < convert_flow_liquid q d.unit_system "gpm" := by
    rw [liq_flow_conv]
    split_ifs
    · exact mul_pos hq hM
    · exact hq
  have hflt : convert_flow_liquid q d.unit_system "gpm" <
      convert_flow_liquid q' d.unit_system "gpm" := by
    rw [liq_flow_conv, liq_flow_conv]
    split_ifs
    · exact mul_lt_mul_of_pos_right hqq hM
    · exact hqq
  refine ⟨r, r', hr, hr', ?_, ?_⟩
  · rw [hrcv, hcvq]
    exact mul_pos (by exact_mod_cast hfq) hspos
  · rw [hrcv, hrcv', hcvq, hcvq']
    exact mul_lt_mul_of_pos_right (by exact_mod_cast hflt) hspos

def c9_data : LiquidData :=
  { p1 := 10, p2 := 5, pv := 0, pc := 221, rho := 1000, flow_rate := 100,
    unit_system := "Metric", fl := 0.9, kc := 0.7 }

theorem liquid_cv_positive_monotone_witness :
    liq_pc c9_data ≠ 0 ∧ 0 ≤ liq_pv_over_pc c9_data ∧ c9_data.kc ≠ 0 ∧
    (0 : ℚ) < c9_data.p2 ∧ c9_data.p2 < c9_data.p1 ∧
    0 < liq_dp_allowable c9_data ∧ 0 < liq_gf c9_data ∧
    ∃ r r' : LiquidResult,
      calculate_liquid_cv { c9_data with flow_rate := 50 } = .ok r ∧
      calculate_liquid_cv { c9_data with flow_rate := 100 } = .ok r' ∧
      0 < r.cv ∧ r.cv < r'.cv := by
  have hpc : liq_pc c9_data ≠ 0 := by
    norm_num [liq_pc, convert_pressure, c9_data, BAR_TO_PSI]
  have hratio : 0 ≤ liq_pv_over_pc c9_data := by
    norm_num [liq_pv_over_pc, liq_pv, liq_pc, convert_pressure, c9_data, BAR_TO_PSI]
  have hkc : c9_data.kc ≠ 0 := by norm_num [c9_data]
  have hp2 : (0 : ℚ) < c9_data.p2 := by norm_num [c9_data]
  have hp12 : c9_data.p2 < c9_data.p1 := by norm_num [c9_data]
  have hr0 : liq_pv_over_pc c9_data = 0 := by
    norm_num [liq_pv_over_pc, liq_pv, liq_pc, convert_pressure, c9_data]
  have hpv : liq_pv c9_data = 0 := by
    norm_num [liq_pv, convert_pressure, c9_data]
  have hp1v : liq_p1 c9_data = 10 * BAR_TO_PSI := by
    norm_num [liq_p1, convert_pressure, c9_data]
  have hdpa : 0 < liq_dp_allowable c9_data := by
    unfold liq_dp_allowable liq_ff
    rw [hr0, hpv, hp1v]
    push_cast
    rw [Real.sqrt_zero]
    norm_num [BAR_TO_PSI, c9_data]
  have hgf : 0 < liq_gf c9_data := by
    norm_num [liq_gf, c9_data]
  have H := liquid_cv_positive_monotone c9_data 50 100 hpc hratio hkc hp2 hp12
    hdpa hgf (by norm_num) (by norm_num)
  exact ⟨hpc, hratio, hkc, hp2, hp12, hdpa, hgf, H⟩

end ValveSizing
